import Mathlib

/-!
Verification model for the StormSafe advisory-synthesis pipeline.

The JavaScript sources are shallowly embedded: every function below mirrors
one function of the repository (same name wherever Lean allows it), with
JavaScript values modelled by the `JsVal` inductive, machine floats by `ℚ`,
`Math.round` by `jsRound`, and absent object fields by `JsVal.null`
(the code under verification never distinguishes `undefined` from `null`:
it only tests truthiness, `Array.isArray`, `typeof`, and inclusion in fixed
string lists, all of which agree on the two values).

Object field lists are assumed key-unique, as JavaScript objects are.
-/

namespace StormSafe

/-- Model of a parsed JSON / JavaScript value. -/
inductive JsVal where
  | null
  | bool (b : Bool)
  | num (n : Int)
  | str (s : String)
  | arr (elems : List JsVal)
  | obj (fields : List (String × JsVal))

/-- JavaScript truthiness of a value (arrays and objects are always truthy). -/
def JsVal.truthy : JsVal → Bool
  | .null => false
  | .bool b => b
  | .num n => n != 0
  | .str s => s != ""
  | .arr _ => true
  | .obj _ => true

/-- Property access `v?.k`: field lookup on objects, `undefined` (here `null`)
on everything else. -/
def JsVal.get : JsVal → String → JsVal
  | .obj fields, k => (((fields.find? (fun p => p.1 == k)).map (fun p => p.2)).getD .null)
  | _, _ => .null

/-- Index access `v?.[i]` for a numeric literal index: array element, character
of a string, numeric-keyed object field, `undefined` (here `null`) otherwise. -/
def JsVal.idx : JsVal → Nat → JsVal
  | .arr elems, i => (elems.get? i).getD .null
  | .obj fields, i => (((fields.find? (fun p => p.1 == toString i)).map (fun p => p.2)).getD .null)
  | .str s, i =>
    match s.data.get? i with
    | some c => .str (String.mk [c])
    | none => .null
  | _, _ => .null

/-- The JavaScript `a || b` operator. -/
def jsOr (a b : JsVal) : JsVal := if a.truthy then a else b

mutual

/-- Depth of array nesting inside a value; used only as a recursion bound for
`jsToString` (`Array.prototype.join` recurses into array elements only). -/
def jsHeight : JsVal → Nat
  | .arr elems => 1 + jsHeightList elems
  | _ => 0

def jsHeightList : List JsVal → Nat
  | [] => 0
  | v :: rest => max (jsHeight v) (jsHeightList rest)

end

/-- `String(v)` for a non-array, non-object value, and the element conversion
used by `Array.prototype.join` (which renders `null` as the empty string).
Arrays recurse; the `fuel` argument is a structural recursion bound, always
called with `fuel ≥` the value's array-nesting depth (see `jsToString`). -/
def jsToStringFuel (fuel : Nat) (v : JsVal) : String :=
  match v with
  | .null => "null"
  | .bool b => if b then "true" else "false"
  | .num n => toString n
  | .str s => s
  | .obj _ => "[object Object]"
  | .arr elems =>
    match fuel with
    | fuel' + 1 =>
      String.intercalate "," (elems.map (fun e =>
        match e with
        | .null => ""
        | v' => jsToStringFuel fuel' v'))
    | 0 => ""

/-- `String(v)`: JavaScript string coercion. `jsHeight v` bounds the
array-nesting depth of `v`, so the fuelled recursion never bottoms out early. -/
def jsToString (v : JsVal) : String := jsToStringFuel (jsHeight v) v

/-- JavaScript `Math.round`: round half toward positive infinity. -/
def jsRound (q : ℚ) : ℤ := ⌊q + 1/2⌋

/-- The normalized recommendation object produced by `normalizeRecommendation`
and `getDefaultRecommendation`. `best_route_advice` is kept as a raw value
(the source leaves falsy non-strings untouched in that field). -/
structure Recommendation where
  verdict : String
  reasons : List String
  return_risk : String
  best_route_advice : JsVal
  summary : String

def allowedVerdicts : List String := ["Go for it", "Go if you have to", "Wait it out", "Stay in tonight"]

def allowedRisks : List String := ["low", "medium", "high", "unknown"]

/-- Mirror of `normalizeRecommendation(parsed)` from the Claude-engine module:
field-aliases the five output fields, validates the enumerations, truncates
the reasons to three and appends one filler when fewer than two remain. -/
def normalizeRecommendation (parsed : JsVal) : Recommendation :=
  -- verdict
  let verdict0 := parsed.get "verdict"
  let verdict1 :=
    if ! verdict0.truthy then
      let v := jsOr (parsed.get "recommendation")
                 (jsOr (parsed.get "not_tonight")
                   (jsOr (parsed.get "wait_it_out") (.str "Wait it out")))
      match v with
      | .bool b => if b then JsVal.str "Go for it" else JsVal.str "Wait it out"
      | _ => v
    else verdict0
  let verdict : String :=
    match verdict1 with
    | .str s => if allowedVerdicts.contains s then s else "Wait it out"
    | _ => "Wait it out"
  -- reasons
  let reasons0 := parsed.get "reasons"
  let reasons1 : List JsVal :=
    match reasons0 with
    | .arr xs => xs
    | _ =>
      match jsOr (parsed.get "key_factors")
              (jsOr (parsed.get "risk_factors")
                (jsOr (parsed.get "factors") (.arr []))) with
      | .arr xs => xs
      | _ => []
  let reasons2 := if reasons1.length > 3 then reasons1.take 3 else reasons1
  let reasons3 := if reasons2.length < 2 then reasons2 ++ [JsVal.str "Unable to fully assess conditions"] else reasons2
  -- return_risk
  let risk0 := parsed.get "return_risk"
  let risk1 :=
    if ! risk0.truthy then
      jsOr (parsed.get "risk_level") (jsOr (parsed.get "travel_risk") (.str "unknown"))
    else risk0
  let return_risk : String :=
    match risk1 with
    | .str s => if allowedRisks.contains s then s else "unknown"
    | _ => "unknown"
  -- best_route_advice
  let advice0 := parsed.get "best_route_advice"
  let advice1 :=
    if ! advice0.truthy then
      jsOr (parsed.get "transit_advice") (jsOr (parsed.get "route_advice") .null)
    else advice0
  let best_route_advice :=
    match advice1 with
    | .str _ => advice1
    | v => if v.truthy then JsVal.null else v
  -- summary
  let summary0 := parsed.get "summary"
  let summary1 :=
    if ! summary0.truthy then
      jsOr (parsed.get "reasoning")
        (jsOr (parsed.get "transit_advice")
          (jsOr (parsed.get "explanation") (.str "Unable to provide summary")))
    else summary0
  let summary : String :=
    match summary1 with
    | .str s => s
    | _ => "Unable to provide summary"
  ⟨verdict,
   reasons3.map (fun r => match r with | .str s => s | v => jsToString v),
   return_risk, best_route_advice, summary⟩

/-- Mirror of `getDefaultRecommendation()`: the safe-default recommendation
substituted on fetch or parse failure. -/
def getDefaultRecommendation : Recommendation :=
  ⟨"Wait it out",
   ["Unable to assess conditions — consider waiting"],
   "high",
   .str "Stay home or postpone your trip until conditions improve.",
   "Travel is not recommended at this time."⟩

/-! ## Transit status module (MTA alerts + PATH) -/

/-- Substring test on character lists: does `needle` occur inside the list? -/
def subListAt (needle : List Char) : List Char → Bool
  | [] => needle.isEmpty
  | c :: rest => needle.isPrefixOf (c :: rest) || subListAt needle rest

/-- JavaScript `hay.includes(needle)` on strings. -/
def strContains (hay needle : String) : Bool := subListAt needle.data hay.data

/-- JavaScript `toLowerCase()` (ASCII, which covers every string compared here). -/
def sLower (s : String) : String := String.mk (s.data.map Char.toLower)

/-- JavaScript `toUpperCase()` (ASCII). -/
def sUpper (s : String) : String := String.mk (s.data.map Char.toUpper)

/-- A per-line status entry `{ status, message }`. The message is carried as a
raw value, exactly as the source stores whatever `pickAlertText` returned. -/
structure LineStatus where
  status : String
  message : JsVal

/-- Mirror of `pickAlertText(alert)`: extract a readable alert message from the
GTFS-RT-style JSON shapes, preferring header text over description text. -/
def pickAlertText (alert : JsVal) : JsVal :=
  match alert with
  | .str _ => alert
  | _ =>
    let header :=
      jsOr ((((alert.get "header_text").get "translation").idx 0).get "text")
        (jsOr (((alert.get "header_text").idx 0).get "text")
          ((alert.get "header_text").get "text"))
    let desc :=
      jsOr ((((alert.get "description_text").get "translation").idx 0).get "text")
        (jsOr (((alert.get "description_text").idx 0).get "text")
          ((alert.get "description_text").get "text"))
    jsOr header (jsOr desc .null)

/-- Mirror of `pickRoutes(alert)`: collect the truthy `route_id` values of the
`informed_entity` list (empty when the list is absent or not an array). -/
def pickRoutes (alert : JsVal) : List JsVal :=
  match alert.get "informed_entity" with
  | .arr entities =>
    entities.filterMap (fun ent =>
      let r := ent.get "route_id"
      if r.truthy then some r else none)
  | _ => []

/-- Mirror of `mapSeverity(alert)`: effect-code lookup table with conservative
defaults — absent/falsy effect is `none`, an unrecognized effect is `moderate`. -/
def mapSeverity (alert : JsVal) : String :=
  let effect := alert.get "effect"
  if ! effect.truthy then "none"
  else
    let key := jsToString effect
    if key = "NO_SERVICE" then "extreme"
    else if key = "REDUCED_SERVICE" then "high"
    else if key = "SIGNIFICANT_DELAYS" then "high"
    else if key = "DETOUR" then "moderate"
    else if key = "OTHER_EFFECT" then "moderate"
    else if key = "UNKNOWN_EFFECT" then "moderate"
    else if key = "STOP_MOVED" then "low"
    else "moderate"

/-- The fixed universe of known subway lines (`commonLines` in `initSubwayStatus`). -/
def commonLines : List String :=
  ["A", "C", "E", "B", "D", "F", "M", "N", "Q", "R", "W",
   "1", "2", "3", "4", "5", "6", "7", "G", "J", "L", "S"]

/-- Mirror of `initSubwayStatus()`: every known line starts `normal` with no
message. The per-line map is an insertion-ordered association list, like a
JavaScript object. -/
def initSubwayStatus : List (String × LineStatus) :=
  commonLines.map (fun line => (line, ⟨"normal", .null⟩))

/-- Key lookup `m[k]` in the per-line map. -/
def mapGet : List (String × LineStatus) → String → Option LineStatus
  | [], _ => none
  | p :: rest, k => if p.1 = k then some p.2 else mapGet rest k

/-- Key update `m[k] = v` for a key already present (JavaScript objects keep
the original insertion position on reassignment). -/
def mapSet : List (String × LineStatus) → String → LineStatus → List (String × LineStatus)
  | [], _, _ => []
  | p :: rest, k, v => if p.1 = k then (k, v) :: mapSet rest k v else p :: mapSet rest k v

/-- One iteration of the inner route loop of `processMtaJson`:
`if (subwayStatus[routeId]) subwayStatus[routeId] = {status: message ? "delays" : "normal", message}`.
Property keys are coerced with `String(...)` as in JavaScript. -/
def applyRoute (m : List (String × LineStatus)) (message : JsVal) (routeId : JsVal) : List (String × LineStatus) :=
  let key := jsToString routeId
  match mapGet m key with
  | some _ => mapSet m key ⟨if message.truthy then "delays" else "normal", message⟩
  | none => m

/-- `routeIds.includes(r)` where `routeIds` is a string array: SameValueZero
equality, so only string values can match. -/
def jsIncludesStr (ids : List String) (r : JsVal) : Bool :=
  match r with
  | .str s => ids.contains s
  | _ => false

/-- One iteration of the entity loop of `processMtaJson`: skip falsy alerts,
apply the optional route filter, update the running severity, and write the
extracted message onto every affected known line. -/
def processEntity (routeIds : List String) (acc : List (String × LineStatus) × String)
    (entity : JsVal) : List (String × LineStatus) × String :=
  let alert := entity.get "alert"
  if ! alert.truthy then acc
  else
    let affectedRoutes := pickRoutes alert
    if decide (routeIds.length > 0) && ! affectedRoutes.any (jsIncludesStr routeIds) then acc
    else
      let severity := mapSeverity alert
      let maxSeverity := if severity != "none" then severity else acc.2
      let message := pickAlertText alert
      (affectedRoutes.foldl (fun m r => applyRoute m message r) acc.1, maxSeverity)

/-- The entity loop of `processMtaJson` over an entity list. -/
def processEntities (routeIds : List String) (entities : List JsVal) :
    List (String × LineStatus) × String :=
  entities.foldl (processEntity routeIds) (initSubwayStatus, "none")

/-- Mirror of `processMtaJson(mtaJson, routeIds)`: a falsy payload or a
non-array `entity` field yields the all-normal default with severity `none`. -/
def processMtaJson (mtaJson : JsVal) (routeIds : List String) :
    List (String × LineStatus) × String :=
  if ! mtaJson.truthy then (initSubwayStatus, "none")
  else
    match mtaJson.get "entity" with
    | .arr entities => processEntities routeIds entities
    | _ => (initSubwayStatus, "none")

/-- Mirror of `generateSummary(subwayStatus, pathStatus)`. -/
def generateSummary (subwayStatus : List (String × LineStatus)) (pathStatus : Option LineStatus) : String :=
  let delayedLines := (subwayStatus.filter (fun p => p.2.message.truthy)).map (fun p => p.1)
  let pathMsg := ((pathStatus.map (fun (p : LineStatus) => p.message)).getD .null).truthy
  if delayedLines.isEmpty && ! pathMsg then "Good service on all lines"
  else if ! delayedLines.isEmpty && ! pathMsg then
    "Delays on " ++ String.intercalate ", " delayedLines
  else if delayedLines.isEmpty && pathMsg then "PATH service affected"
  else "Delays on " ++ String.intercalate ", " delayedLines ++ " and PATH"

/-- A message entry of the PATH real-time arrivals feed (typed view of the
fields `fetchPATHStatus` reads). -/
structure PathMsg where
  arrivalTimeMessage : Option String
  secondsToArrival : Option Int

structure PathDestination where
  messages : Option (List PathMsg)

structure PathResult where
  destinations : Option (List PathDestination)

structure PathFeed where
  results : Option (List PathResult)

/-- The scan inside `fetchPATHStatus`: first message with an explicit
`"Delayed"` marker or a seconds-to-arrival above 1200 wins. -/
def scanPathMsg (msg : PathMsg) : Option LineStatus :=
  let delayedText :=
    match msg.arrivalTimeMessage with
    | some t => t != "" && strContains t "Delayed"
    | none => false
  if delayedText then some ⟨"delays", .str "Delays on PATH — next train delayed"⟩
  else
    match msg.secondsToArrival with
    | some n =>
      if n != 0 && n > 1200 then
        some ⟨"delays", .str ("Delays on PATH — next train " ++ toString (jsRound ((n : ℚ) / 60)) ++ " min")⟩
      else none
    | none => none

/-- Mirror of `fetchPATHStatus()` on an already-fetched feed (`none` models a
failed or non-OK fetch). Every path through the source returns a status
object; failures and quiet feeds yield the normal default. -/
def fetchPATHStatus (feed : Option PathFeed) : LineStatus :=
  match feed with
  | none => ⟨"normal", .null⟩
  | some data =>
    let scanned : Option LineStatus :=
      match data.results with
      | some results =>
        results.findSome? (fun result =>
          match result.destinations with
          | some destinations =>
            destinations.findSome? (fun destination =>
              match destination.messages with
              | some msgs => msgs.findSome? scanPathMsg
              | none => none)
          | none => none)
      | none => none
    scanned.getD ⟨"normal", .null⟩

/-- The fixed New Jersey keyword list of the transit-status module. -/
def NJ_KEYWORDS : List String :=
  ["new jersey", "nj", "jersey city", "hoboken", "newark", "harrison",
   "journal square", "grove street", "exchange place", "newport", "secaucus",
   "bayonne", "weehawken", "edgewater", "fort lee", "union city"]

/-- The lower-cased `origin destination` haystack built by `isPathRelevant`. -/
def njHaystack (origin destination : Option String) : String :=
  sLower ((origin.getD "") ++ " " ++ (destination.getD ""))

/-- Mirror of `isPathRelevant(origin, destination)`: true only when the trip
plausibly involves New Jersey. -/
def isPathRelevant (origin destination : Option String) : Bool :=
  NJ_KEYWORDS.any (fun kw => strContains (njHaystack origin destination) kw)

/-- The merged transit status returned by `fetchTransitStatus`. -/
structure TransitStatus where
  subway : List (String × LineStatus)
  path : Option LineStatus
  summary : String
  severity : String

/-- Insert-or-overwrite on the filtered subway object built by
`fetchTransitStatus` (`filteredSubway[id] = subwayStatus[id]`). -/
def objSet (m : List (String × LineStatus)) (k : String) (v : LineStatus) : List (String × LineStatus) :=
  if (mapGet m k).isSome then mapSet m k v else m ++ [(k, v)]

/-- Mirror of `fetchTransitStatus(routeIds, origin, destination)` on
already-fetched feeds: `mtaJson` is the (possibly `null`) MTA alert payload
and `pathFeed` the PATH feed; the PATH fetch is issued only when
`isPathRelevant` holds, otherwise `path` stays `null`. -/
def fetchTransitStatus (mtaJson : JsVal) (pathFeed : Option PathFeed)
    (routeIds : List String) (origin destination : Option String) : TransitStatus :=
  let pathNeeded := isPathRelevant origin destination
  let pathStatus : Option LineStatus := if pathNeeded then some (fetchPATHStatus pathFeed) else none
  let processed := processMtaJson mtaJson routeIds
  let subwayStatus := processed.1
  let maxSeverity := processed.2
  let filteredSubway :=
    if decide (routeIds.length > 0) then
      routeIds.foldl (fun acc id =>
        match mapGet subwayStatus id with
        | some v => objSet acc id v
        | none => acc) []
    else subwayStatus
  ⟨filteredSubway, pathStatus, generateSummary subwayStatus pathStatus, maxSeverity⟩

/-! ## Travel data module -/

/-- An origin/destination coordinate pair. -/
structure Coords where
  lat : ℚ
  lng : ℚ

/-- A Mapbox maneuver: `{ instruction, type }` as read by the source. -/
structure Maneuver where
  instruction : Option String
  type : Option String

/-- A Mapbox route step: the fields the source reads. -/
structure RawStep where
  maneuver : Option Maneuver
  mode : Option String
  name : Option String
  duration : Option ℚ

/-- A Mapbox route leg (`route.legs[i]`). -/
structure MapboxLeg where
  steps : Option (List RawStep)

/-- A Mapbox route alternative. -/
structure RawRoute where
  duration : ℚ
  distance : ℚ
  legs : Option (List MapboxLeg)

/-- A Mapbox directions response body (`data.routes` may be absent). -/
structure DirectionsResponse where
  routes : Option (List RawRoute)

/-- `route.legs?.[0]?.steps ?? []`. -/
def routeSteps (r : RawRoute) : List RawStep :=
  match r.legs with
  | some (leg :: _) => leg.steps.getD []
  | _ => []

/-- Truthiness of an optional string field (absent or empty is falsy). -/
def optStrTruthy : Option String → Bool
  | some s => s != ""
  | none => false

def FERRY_KEYWORDS : List String := ["ferry", "boat", "water taxi", "water shuttle"]

/-- Mirror of `isFerryRoute(steps)`: true when any step involves water
transport, by mode field or instruction keyword. -/
def isFerryRoute (steps : List RawStep) : Bool :=
  steps.any (fun s =>
    let instruction := sLower ((s.maneuver.bind (fun m => m.instruction)).getD "")
    let mode := sLower (s.mode.getD "")
    mode == "ferry" || FERRY_KEYWORDS.any (fun kw => strContains instruction kw))

/-! The scanner below implements the regular expression of
`extractRelevantLines`:

  `/\bthe\s+([ACEDGFJLMNQRSW1-7](?:\/[ACEDGFJLMNQRSW1-7])*)\s*(?:train|line)?\b/gi`

with JavaScript leftmost-match and greedy-with-backtracking semantics,
specialized to this one pattern. -/

/-- A word character for `\b` (`[A-Za-z0-9_]`). -/
def isWordChar (c : Char) : Bool := c.isAlphanum || c == '_'

/-- A whitespace character for `\s` (the ASCII cases). -/
def isJsSpace (c : Char) : Bool :=
  c == ' ' || c == '\t' || c == '\n' || c == '\r' || c == '\x0b' || c == '\x0c'

/-- Membership in the character class `[ACEDGFJLMNQRSW1-7]` under the `i` flag. -/
def isLineClassChar (c : Char) : Bool :=
  let u := c.toUpper
  u == 'A' || u == 'C' || u == 'E' || u == 'D' || u == 'G' || u == 'F' ||
  u == 'J' || u == 'L' || u == 'M' || u == 'N' || u == 'Q' || u == 'R' ||
  u == 'S' || u == 'W' || ('1' ≤ u && u ≤ '7')

/-- Is the character at index `i` (if any) a word character? -/
def wordAt (s : List Char) (i : Nat) : Bool :=
  match s.get? i with
  | some c => isWordChar c
  | none => false

/-- Does `\b` hold between positions `i - 1` and `i`? -/
def boundaryAt (s : List Char) (i : Nat) : Bool :=
  let leftWord :=
    match i with
    | 0 => false
    | j + 1 => wordAt s j
  leftWord != wordAt s i

/-- Case-insensitive literal match of `pat` at index `i`. -/
def matchCI (s : List Char) (i : Nat) : List Char → Bool
  | [] => true
  | c :: cs =>
    match s.get? i with
    | some d => (d.toLower == c.toLower) && matchCI s (i + 1) cs
    | none => false

/-- Length of the whitespace run starting at index `i` (fuelled). -/
def wsRunLen (s : List Char) : Nat → Nat → Nat
  | _, 0 => 0
  | i, fuel + 1 =>
    match s.get? i with
    | some c => if isJsSpace c then wsRunLen s (i + 1) fuel + 1 else 0
    | none => 0

/-- Try the regex tail `(?:train|line)?\b` at index `q` (after the whitespace
of `\s*`), alternatives in JavaScript preference order; returns the match end. -/
def tryTailAt (s : List Char) (q : Nat) : Option Nat :=
  if matchCI s q ['t', 'r', 'a', 'i', 'n'] && boundaryAt s (q + 5) then some (q + 5)
  else if matchCI s q ['l', 'i', 'n', 'e'] && boundaryAt s (q + 4) then some (q + 4)
  else if boundaryAt s q then some q
  else none

/-- Try the regex tail `\s*(?:train|line)?\b` at index `p`, consuming `w`
whitespace characters first and backtracking `w` downward (greedy `\s*`).
Returns the end index of the match. -/
def tryTail (s : List Char) (p : Nat) : Nat → Option Nat
  | 0 => tryTailAt s p
  | w + 1 =>
    match tryTailAt s (p + (w + 1)) with
    | some e => some e
    | none => tryTail s p w

/-- Number of `/[class]` continuation pairs starting at index `p` (fuelled). -/
def groupPairs (s : List Char) : Nat → Nat → Nat
  | _, 0 => 0
  | p, fuel + 1 =>
    match s.get? p, s.get? (p + 1) with
    | some '/', some c => if isLineClassChar c then groupPairs s (p + 2) fuel + 1 else 0
    | _, _ => 0

/-- Try the capture group with exactly `k` continuation pairs followed by the
tail; `g` is the index of the first group character. -/
def tryGroupAt (s : List Char) (g : Nat) (k : Nat) : Option (List Char × Nat) :=
  let endPos := g + 1 + 2 * k
  match tryTail s endPos (wsRunLen s endPos (s.length + 1)) with
  | some e => some ((s.drop g).take (2 * k + 1), e)
  | none => none

/-- Try the capture group with at most `k` continuation pairs, backtracking
`k` downward (greedy `(?:\/[class])*` first), each followed by the tail.
Returns the captured text and the match end index. -/
def tryGroup (s : List Char) (g : Nat) : Nat → Option (List Char × Nat)
  | 0 => tryGroupAt s g 0
  | k + 1 =>
    match tryGroupAt s g (k + 1) with
    | some r => some r
    | none => tryGroup s g k

/-- Try one full regex match starting exactly at index `i`. Returns the
captured group text and the end index of the whole match. -/
def matchRegexAt (s : List Char) (i : Nat) : Option (List Char × Nat) :=
  let leftOk :=
    match i with
    | 0 => true
    | j + 1 => ! wordAt s j
  if ! leftOk then none
  else if ! matchCI s i ['t', 'h', 'e'] then none
  else
    let wsStart := i + 3
    let w := wsRunLen s wsStart (s.length + 1)
    if w == 0 then none
    else
      let g := wsStart + w
      match s.get? g with
      | none => none
      | some c =>
        if ! isLineClassChar c then none
        else tryGroup s g (groupPairs s (g + 1) (s.length + 1))

/-- `matchAll` scan: collect the capture groups of every match, resuming each
search at the end of the previous match (fuelled; every step advances). -/
def scanMatches (s : List Char) : Nat → Nat → List (List Char)
  | _, 0 => []
  | i, fuel + 1 =>
    if decide (s.length ≤ i) then []
    else
      match matchRegexAt s i with
      | some (grp, e) => grp :: scanMatches s (if decide (i < e) then e else i + 1) fuel
      | none => scanMatches s (i + 1) fuel

/-- All capture-group texts of the line regex over an instruction string. -/
def regexLineMatches (instr : String) : List String :=
  (scanMatches instr.data 0 (instr.data.length + 1)).map String.mk

def VALID_LINES : List String :=
  ["A", "C", "E", "B", "D", "F", "M", "N", "Q", "R", "W",
   "1", "2", "3", "4", "5", "6", "7", "G", "J", "L", "S"]

/-- Split on `/` (JavaScript `split('/')` on the captured group). -/
def splitSlash (s : List Char) : List (List Char) :=
  match s with
  | [] => [[]]
  | '/' :: rest => [] :: splitSlash rest
  | c :: rest =>
    match splitSlash rest with
    | part :: parts => (c :: part) :: parts
    | [] => [[c]]

/-- Set insertion preserving first-insertion order (JavaScript `Set.add`). -/
def addUnique (l : List String) (x : String) : List String :=
  if l.contains x then l else l ++ [x]

/-- Mirror of `extractRelevantLines(steps)`: regex-scan each transit or
instruction-bearing step, split each captured group on `/`, uppercase, and
keep the tokens in the fixed line universe, deduplicated in discovery order. -/
def extractRelevantLines (steps : List RawStep) : List String :=
  steps.foldl (fun found step =>
    if step.mode == some "transit" || optStrTruthy (step.maneuver.bind (fun m => m.instruction)) then
      let instr := (step.maneuver.bind (fun m => m.instruction)).getD ""
      (regexLineMatches instr).foldl (fun fnd grp =>
        ((splitSlash (sUpper grp).data).map String.mk).foldl (fun acc part =>
          if VALID_LINES.contains part then addUnique acc part else acc) fnd) found
    else found) []

/-- The directions data assembled by `getDirections`: either the ferry-only
marker object or the first non-ferry route's duration, distance and steps. -/
inductive DirectionsData where
  | ferryOnly
  | route (duration : ℚ) (distance : ℚ) (steps : List RawStep)

/-- Mirror of the response handling in `getDirections`: `none` models a failed
or non-OK fetch as well as an absent or empty route list; otherwise filter out
ferry routes, flagging `ferryOnly` when none survive. -/
def getDirections (resp : Option DirectionsResponse) : Option DirectionsData :=
  match resp with
  | none => none
  | some data =>
    match data.routes with
    | none => none
    | some routes =>
      if routes.length == 0 then none
      else
        match routes.filter (fun r => ! isFerryRoute (routeSteps r)) with
        | [] => some .ferryOnly
        | route :: _ => some (.route route.duration route.distance (routeSteps route))

def EXCLUDED_MODES : List String := ["bus", "ferry", "boat", "water taxi"]

/-- Mirror of `generateStepBasedRoute(steps, totalMinutes)`: a one-sentence
description from the first and last usable step instructions, or `null`. -/
def generateStepBasedRoute (steps : List RawStep) (totalMinutes : ℤ) : Option String :=
  if steps.length == 0 then none
  else
    let moveSteps := steps.filter (fun s =>
      ((s.maneuver.bind (fun m => m.type)) != some "arrive")
      && optStrTruthy (s.maneuver.bind (fun m => m.instruction))
      && ! EXCLUDED_MODES.any (fun md =>
            strContains (sLower ((s.maneuver.bind (fun m => m.instruction)).getD "")) md))
    match moveSteps with
    | [] => none
    | m :: rest =>
      let firstInstruction := (m.maneuver.bind (fun mv => mv.instruction)).getD ""
      match rest with
      | [] => some (firstInstruction ++ " — about " ++ toString totalMinutes ++ " min")
      | r0 :: rs =>
        let lastMove := (r0 :: rs).getLast (List.cons_ne_nil r0 rs)
        let lastInstruction := sLower ((lastMove.maneuver.bind (fun mv => mv.instruction)).getD "")
        some (firstInstruction ++ ", then " ++ lastInstruction ++ " — about " ++ toString totalMinutes ++ " min")

/-- Mirror of `generateFallbackRoute(distanceCategory, weatherSeverity)`. -/
def generateFallbackRoute (distanceCategory : String) (weatherSeverity : String) : String :=
  if distanceCategory == "walkable" then
    if weatherSeverity == "extreme" then "Within walking distance — take shelter or use transit given the weather."
    else if weatherSeverity == "severe" then "Within walking distance — bundle up, conditions are rough."
    else "Walking distance — straightforward if weather allows."
  else if distanceCategory == "short_transit" then
    if weatherSeverity == "extreme" then "Take the subway to avoid street exposure."
    else "A quick subway or bus ride — stay underground as much as possible."
  else if weatherSeverity == "extreme" then "Take the subway or rideshare — avoid prolonged outdoor exposure."
  else if weatherSeverity == "severe" then "Subway preferred over street-level routes."
  else "Take the subway when available to limit weather exposure."

/-- Mirror of `getStormMultiplier(weatherSeverity)`: fixed multiplier table,
defaulting to 1.0 on an unknown bucket. -/
def getStormMultiplier (weatherSeverity : String) : ℚ :=
  if weatherSeverity = "none" then 1
  else if weatherSeverity = "light" then 13/10
  else if weatherSeverity = "moderate" then 17/10
  else if weatherSeverity = "severe" then 22/10
  else if weatherSeverity = "extreme" then 3
  else 1

/-- Mirror of `getDistanceCategory(distanceMiles)`. -/
def getDistanceCategory (distanceMiles : ℚ) : String :=
  if distanceMiles < 8/10 then "walkable"
  else if distanceMiles < 3 then "short_transit"
  else "long_transit"

/-- `generateStepBasedRoute(...) || generateFallbackRoute(...)`: the left
operand wins when it is a truthy (non-empty) string. -/
def jsOrElseStr (o : Option String) (d : String) : String :=
  match o with
  | some s => if s == "" then d else s
  | none => d

/-- A forwarded raw step `{ instruction, street, duration_sec }`. -/
structure RouteStep where
  instruction : Option String
  street : Option String
  duration_sec : ℤ

/-- The `TravelData` record returned by `fetchTravelData`. -/
structure TravelData where
  baseline_minutes : Option ℤ
  storm_minutes : Option ℤ
  distance_miles : Option ℚ
  distance_category : String
  best_route : Option String
  ferry_only_route : Bool
  relevantLines : List String
  route_steps : List RouteStep

/-- Mirror of `fetchTravelData(originCoords, destination, weatherSeverity,
destCoordsHint)` on already-fetched collaborator responses: `hasMapboxKey`
models the configured API key, `destCoords` the resolved destination
coordinates (hint or geocoding result, `none` when resolution failed), and
`directionsResp` the directions response body (`none` for a failed fetch).
Every failure path returns `none`; a ferry-only route set returns the
first-class terminal record. -/
def fetchTravelData (hasMapboxKey : Bool) (destCoords : Option Coords)
    (directionsResp : Option DirectionsResponse) (weatherSeverity : String) : Option TravelData :=
  if ! hasMapboxKey then none
  else
    match destCoords with
    | none => none
    | some _ =>
      match getDirections directionsResp with
      | none => none
      | some .ferryOnly =>
        some ⟨none, none, none, "unknown", none, true, [], []⟩
      | some (.route duration distance steps) =>
        let baselineMinutes := jsRound (duration / 60)
        let stormMultiplier := getStormMultiplier weatherSeverity
        let stormMinutes := jsRound ((baselineMinutes : ℚ) * stormMultiplier)
        let distanceMiles : ℚ := (jsRound (distance * (621371 / 1000000000) * 10) : ℚ) / 10
        let distanceCategory := getDistanceCategory distanceMiles
        let routeDescription :=
          jsOrElseStr (generateStepBasedRoute steps baselineMinutes)
            (generateFallbackRoute distanceCategory weatherSeverity)
        some ⟨some baselineMinutes, some stormMinutes, some distanceMiles, distanceCategory,
              some routeDescription, false, extractRelevantLines steps,
              (steps.take 6).map (fun s =>
                ⟨s.maneuver.bind (fun m => m.instruction), s.name, jsRound ((s.duration).getD 0)⟩)⟩

/-! ## Travel ban module -/

/-- The travel-ban status object. -/
structure BanStatus where
  ban_level : String
  plain_english : Option String
  affects_walking : Bool
  affects_subway : Bool
  affects_rideshare : Bool
deriving DecidableEq

/-- Mirror of `getDefaultTravelBan()`. -/
def getDefaultTravelBan : BanStatus := ⟨"none", none, false, false, false⟩

/-- Mirror of `parseTravelBanHTML(html)`: keyword detection of ban levels,
checked from the most to the least severe. -/
def parseTravelBanHTML (html : String) : BanStatus :=
  let lowerHtml := sLower html
  if ["transit suspended", "subway suspended", "mta suspended"].any (fun kw => strContains lowerHtml kw) then
    ⟨"transit_suspended", some "NYC Transit (MTA) services are suspended", false, true, true⟩
  else if ["vehicle ban", "no private vehicles", "no cars allowed"].any (fun kw => strContains lowerHtml kw) then
    ⟨"vehicle_ban", some "All private vehicles banned from NYC streets", false, false, true⟩
  else if ["travel advisory", "travel strongly discouraged"].any (fun kw => strContains lowerHtml kw) then
    ⟨"advisory", some "Travel is strongly discouraged; only travel if absolutely necessary", true, false, false⟩
  else
    ⟨"none", none, false, false, false⟩

/-- The module-level cache slot: `cachedTravelBan` and `cacheTimestamp`
(`none` models `null`; the timestamp is epoch milliseconds). -/
structure BanCacheState where
  cachedTravelBan : Option BanStatus
  cacheTimestamp : Option Int
deriving DecidableEq

def CACHE_DURATION_MS : Int := 10 * 60 * 1000

/-- Mirror of `fetchTravelBan()` as a state transformer over the cache slot at
time `now`: return the cached value when the slot is truthy and fresh,
otherwise store and return the safe default (the stubbed fetch). -/
def fetchTravelBan (st : BanCacheState) (now : Int) : BanStatus × BanCacheState :=
  let fresh : Option BanStatus :=
    match st.cachedTravelBan, st.cacheTimestamp with
    | some v, some t => if t != 0 && now - t < CACHE_DURATION_MS then some v else none
    | _, _ => none
  match fresh with
  | some v => (v, st)
  | none =>
    let banData := getDefaultTravelBan
    (banData, ⟨some banData, some now⟩)

/-- Cache states reachable by the module: the initial `null` slot and anything
a `fetchTravelBan` call can produce from a reachable state. -/
inductive BanReachable : BanCacheState → Prop where
  | init : BanReachable ⟨none, none⟩
  | step (s : BanCacheState) (now : Int) : BanReachable s → BanReachable (fetchTravelBan s now).2

/-! ## Advisory fusion (App.jsx) -/

/-- Mirror of the `isWalkable` computation in `handleSubmit`:
`travelData?.distance_category === 'walkable' || (travelData?.baseline_minutes != null && travelData.baseline_minutes < 20)`. -/
def isWalkable (travelData : Option TravelData) : Bool :=
  (match travelData with
   | some td => td.distance_category == "walkable"
   | none => false)
  ||
  (match travelData with
   | some td =>
     match td.baseline_minutes with
     | some b => decide (b < 20)
     | none => false
   | none => false)

/-! ## Derived predicates and concrete feed fixtures -/

/-- Does an entity of the alert feed reach the per-line write for `line` in
`processMtaJson`? True when its alert is truthy, survives the optional route
filter, and names `line` among its (string-coerced) affected routes. -/
def entityTouches (routeIds : List String) (line : String) (entity : JsVal) : Bool :=
  let alert := entity.get "alert"
  alert.truthy
  && ! (decide (routeIds.length > 0) && ! (pickRoutes alert).any (jsIncludesStr routeIds))
  && ((pickRoutes alert).map jsToString).contains line

/-- An alert with `NO_SERVICE` effect (severity `extreme`) on the A line. -/
def sevAlertHigh : JsVal :=
  .obj [("effect", .str "NO_SERVICE"),
        ("informed_entity", .arr [.obj [("route_id", .str "A")]])]

/-- An alert with `STOP_MOVED` effect (severity `low`) on the C line. -/
def sevAlertLow : JsVal :=
  .obj [("effect", .str "STOP_MOVED"),
        ("informed_entity", .arr [.obj [("route_id", .str "C")]])]

/-- A feed carrying the extreme-severity alert first, the low one second. -/
def sevFeed : JsVal :=
  .obj [("entity", .arr [.obj [("alert", sevAlertHigh)], .obj [("alert", sevAlertLow)]])]

/-- A storm alert on line 4 with a translated header text and no effect. -/
def msgAlert4 : JsVal :=
  .obj [("informed_entity", .arr [.obj [("route_id", .str "4")]]),
        ("header_text", .obj [("translation", .arr [.obj [("text", .str "4 trains running with delays")]])])]

/-- A later alert also naming line 4, with no extractable text at all. -/
def blankAlert4 : JsVal :=
  .obj [("informed_entity", .arr [.obj [("route_id", .str "4")]])]

/-- A feed in which the message-bearing alert precedes the blank one. -/
def overwriteFeed : JsVal :=
  .obj [("entity", .arr [.obj [("alert", msgAlert4)], .obj [("alert", blankAlert4)]])]

/-- A blank alert naming the L line only. -/
def blankAlertL : JsVal :=
  .obj [("informed_entity", .arr [.obj [("route_id", .str "L")]])]

/-- A feed in which the message-bearing alert on line 4 comes last among the
alerts naming line 4 (a blank alert naming a different line follows it). -/
def lastMsgFeed : JsVal :=
  .obj [("entity", .arr [.obj [("alert", blankAlert4)], .obj [("alert", msgAlert4)],
                         .obj [("alert", blankAlertL)]])]

/-- A route whose only step is a ferry crossing. -/
def ferryStep : RawStep :=
  ⟨some ⟨some "Board the Staten Island Ferry", some "depart"⟩, some "ferry", none, some 900⟩

def ferryRoute : RawRoute := ⟨900, 5000, some [⟨some [ferryStep]⟩]⟩

def respFerry : DirectionsResponse := ⟨some [ferryRoute]⟩

/-- A stepless 30-minute, 2 km route. -/
def plainRoute : RawRoute := ⟨1800, 2000, some [⟨some []⟩]⟩

def respPlain : DirectionsResponse := ⟨some [plainRoute]⟩

/-- The `TravelData` that `fetchTravelData` produces from `respPlain` under
`severe` weather. -/
def tdPlain : TravelData :=
  ⟨some 30, some 66, some (12/10), "short_transit",
   some "A quick subway or bus ride — stay underground as much as possible.",
   false, [], []⟩

/-! ## Theorems -/

/-- Claim C1 (code bug). The schema enforcer is claimed to return between 2
and 3 reasons for every parsed object, and the safe default is claimed to meet
the same bound; in fact the single `push` of the filler reason leaves exactly
one reason when zero reasons were parsed (for `{}` and for `{reasons: []}`),
and the safe-default recommendation also carries exactly one reason. -/
theorem reasons_lower_bound_violated :
    (normalizeRecommendation (JsVal.obj [])).reasons = ["Unable to fully assess conditions"]
    ∧ (normalizeRecommendation (JsVal.obj [("reasons", JsVal.arr [])])).reasons.length = 1
    ∧ getDefaultRecommendation.reasons.length = 1 := by
  refine ⟨?_, ?_, ?_⟩ <;> decide

/-- Claim C2 (counterexample). `{not_tonight: "Stay in tonight"}` does not
resolve to `"Wait it out"`: the key `not_tonight` is in the alias chain, so the
verdict becomes `"Stay in tonight"`. -/
theorem not_tonight_is_an_alias :
    (normalizeRecommendation (JsVal.obj [("not_tonight", JsVal.str "Stay in tonight")])).verdict
      = "Stay in tonight"
    ∧ "Stay in tonight" ≠ "Wait it out" := by
  refine ⟨?_, ?_⟩ <;> decide

/-- Claim C2 (amended). The verdict alias list is exactly
`recommendation`, `not_tonight`, `wait_it_out`: when the canonical `verdict`
and all three listed aliases are absent or falsy — in particular when the only
verdict-like entry uses an unlisted alternate key — the verdict resolves to
`"Wait it out"`. -/
theorem unlisted_alias_defaults_to_wait (p : JsVal)
    (h1 : (p.get "verdict").truthy = false)
    (h2 : (p.get "recommendation").truthy = false)
    (h3 : (p.get "not_tonight").truthy = false)
    (h4 : (p.get "wait_it_out").truthy = false) :
    (normalizeRecommendation p).verdict = "Wait it out" := by
  simp only [normalizeRecommendation, jsOr, h1, h2, h3, h4]
  simp only [Bool.false_eq_true, if_false, Bool.not_false, if_true]
  decide

/-- Claim C2 (witness). A concrete object whose only verdict-like entry uses
the unlisted key `go_now` resolves to `"Wait it out"`. -/
theorem unlisted_alias_defaults_to_wait_check :
    ((JsVal.obj [("go_now", JsVal.str "Go for it")]).get "verdict").truthy = false
    ∧ ((JsVal.obj [("go_now", JsVal.str "Go for it")]).get "recommendation").truthy = false
    ∧ ((JsVal.obj [("go_now", JsVal.str "Go for it")]).get "not_tonight").truthy = false
    ∧ ((JsVal.obj [("go_now", JsVal.str "Go for it")]).get "wait_it_out").truthy = false
    ∧ (normalizeRecommendation (JsVal.obj [("go_now", JsVal.str "Go for it")])).verdict = "Wait it out" :=
  ⟨rfl, rfl, rfl, rfl, unlisted_alias_defaults_to_wait _ rfl rfl rfl rfl⟩

/-- Claim C3 (code bug). `maxSeverity` is claimed to be the running maximum
under `none<low<moderate<high<extreme`, never decreasing on a lower-severity
alert; in fact `processMtaJson` overwrites it with every non-`none` severity,
so an `extreme` alert followed by a `low` alert yields `"low"`. -/
theorem maxSeverity_overwritten_not_max :
    mapSeverity sevAlertHigh = "extreme"
    ∧ mapSeverity sevAlertLow = "low"
    ∧ (processMtaJson sevFeed []).2 = "low"
    ∧ ("low" : String) ≠ "extreme" := by
  refine ⟨?_, ?_, ?_, ?_⟩ <;> decide

/-! ### Association-map lemmas for the per-line status map -/

theorem mapGet_mapSet_self (m : List (String × LineStatus)) (k : String) (v : LineStatus) :
    mapGet (mapSet m k v) k = (mapGet m k).map (fun _ => v) := by
  induction m with
  | nil => rfl
  | cons p rest ih =>
    by_cases h : p.1 = k
    · simp [mapSet, mapGet, h]
    · simp [mapSet, mapGet, h, ih]

theorem mapGet_mapSet_other (m : List (String × LineStatus)) (k : String) (v : LineStatus)
    (line : String) (h : line ≠ k) :
    mapGet (mapSet m k v) line = mapGet m line := by
  induction m with
  | nil => rfl
  | cons p rest ih =>
    by_cases hp : p.1 = k
    · simp [mapSet, mapGet, hp, Ne.symm h, ih]
    · simp only [mapSet, if_neg hp, mapGet]
      by_cases hl : p.1 = line <;> simp [hl, ih]

theorem applyRoute_get_self (m : List (String × LineStatus)) (msg r : JsVal) :
    mapGet (applyRoute m msg r) (jsToString r)
      = (mapGet m (jsToString r)).map
          (fun _ => ⟨if msg.truthy then "delays" else "normal", msg⟩) := by
  simp only [applyRoute]
  cases h : mapGet m (jsToString r) with
  | none => simp [h]
  | some v => simp [h, mapGet_mapSet_self]

theorem applyRoute_get_other (m : List (String × LineStatus)) (msg r : JsVal)
    (line : String) (h : line ≠ jsToString r) :
    mapGet (applyRoute m msg r) line = mapGet m line := by
  simp only [applyRoute]
  cases hm : mapGet m (jsToString r) with
  | none => simp [hm]
  | some v =>
    simp only [hm]
    exact mapGet_mapSet_other m (jsToString r) _ line h

theorem applyRoute_isSome (m : List (String × LineStatus)) (msg r : JsVal) (line : String) :
    (mapGet (applyRoute m msg r) line).isSome = (mapGet m line).isSome := by
  by_cases h : line = jsToString r
  · subst h
    rw [applyRoute_get_self]
    cases hm : mapGet m (jsToString r) <;> simp [hm]
  · rw [applyRoute_get_other m msg r line h]

theorem routesFold_get_other (routes : List JsVal) (msg : JsVal) (line : String)
    (h : ∀ r ∈ routes, jsToString r ≠ line) :
    ∀ m, mapGet (routes.foldl (fun m r => applyRoute m msg r) m) line = mapGet m line := by
  induction routes with
  | nil => intro m; rfl
  | cons r rs ih =>
    intro m
    rw [List.foldl_cons, ih (fun x hx => h x (List.mem_cons_of_mem r hx)),
      applyRoute_get_other m msg r line (Ne.symm (h r (List.mem_cons_self r rs)))]

theorem routesFold_isSome (routes : List JsVal) (msg : JsVal) (line : String) :
    ∀ m, (mapGet (routes.foldl (fun m r => applyRoute m msg r) m) line).isSome
      = (mapGet m line).isSome := by
  induction routes with
  | nil => intro m; rfl
  | cons r rs ih => intro m; rw [List.foldl_cons, ih, applyRoute_isSome]

theorem routesFold_keeps (routes : List JsVal) (msg : JsVal) (line : String) :
    ∀ m, mapGet m line = some ⟨if msg.truthy then "delays" else "normal", msg⟩ →
      mapGet (routes.foldl (fun m r => applyRoute m msg r) m) line
        = some ⟨if msg.truthy then "delays" else "normal", msg⟩ := by
  induction routes with
  | nil => intro m hm; exact hm
  | cons r rs ih =>
    intro m hm
    rw [List.foldl_cons]
    refine ih _ ?_
    by_cases h : line = jsToString r
    · subst h; rw [applyRoute_get_self, hm]; rfl
    · rw [applyRoute_get_other m msg r line h]; exact hm

theorem routesFold_sets (routes : List JsVal) (msg : JsVal) (line : String)
    (hmem : line ∈ routes.map jsToString) :
    ∀ m, (mapGet m line).isSome = true →
      mapGet (routes.foldl (fun m r => applyRoute m msg r) m) line
        = some ⟨if msg.truthy then "delays" else "normal", msg⟩ := by
  induction routes with
  | nil => simp at hmem
  | cons r rs ih =>
    intro m hsome
    rw [List.foldl_cons]
    by_cases h : line = jsToString r
    · subst h
      refine routesFold_keeps rs msg _ _ ?_
      rw [applyRoute_get_self]
      cases hm : mapGet m (jsToString r) with
      | none => rw [hm] at hsome; simp at hsome
      | some v => rfl
    · have hmem' : line ∈ rs.map jsToString := by
        rcases List.mem_map.mp hmem with ⟨x, hx, hxeq⟩
        rcases List.mem_cons.mp hx with hx0 | hx1
        · exact absurd hxeq.symm (by rw [hx0] at hxeq ⊢; exact fun hc => h (hxeq ▸ rfl))
        · exact List.mem_map.mpr ⟨x, hx1, hxeq⟩
      refine ih hmem' _ ?_
      rw [applyRoute_get_other m msg r line h]
      exact hsome

theorem contains_iff_mem (l : List String) (a : String) : l.contains a = true ↔ a ∈ l := by
  simp [List.contains, List.elem_iff]

/-! ### Entity-loop lemmas -/

theorem processEntity_get_skip (routeIds : List String) (line : String) (entity : JsVal)
    (acc : List (String × LineStatus) × String)
    (h : entityTouches routeIds line entity = false) :
    mapGet (processEntity routeIds acc entity).1 line = mapGet acc.1 line := by
  simp only [processEntity]
  simp only [entityTouches] at h
  by_cases h1 : (entity.get "alert").truthy
  · rw [h1] at h
    simp only [Bool.true_and] at h
    by_cases h2 : (decide (routeIds.length > 0) && ! (pickRoutes (entity.get "alert")).any (jsIncludesStr routeIds))
    · simp [h1, h2]
    · rw [Bool.not_eq_true] at h2
      rw [h2] at h
      simp only [Bool.not_false, Bool.true_and] at h
      simp only [h1, if_true, Bool.not_true, if_false, h2, Bool.false_eq_true]
      refine routesFold_get_other _ _ _ ?_ _
      intro r hr hc
      have hmem : line ∈ (pickRoutes (entity.get "alert")).map jsToString :=
        List.mem_map.mpr ⟨r, hr, hc⟩
      rw [← contains_iff_mem] at hmem
      rw [hmem] at h
      exact absurd h (by simp)
  · simp [Bool.not_eq_true] at h1
    simp [h1]

theorem processEntity_get_hit (routeIds : List String) (line : String) (entity : JsVal)
    (acc : List (String × LineStatus) × String)
    (h : entityTouches routeIds line entity = true)
    (hsome : (mapGet acc.1 line).isSome = true) :
    mapGet (processEntity routeIds acc entity).1 line
      = some ⟨if (pickAlertText (entity.get "alert")).truthy then "delays" else "normal",
              pickAlertText (entity.get "alert")⟩ := by
  simp only [processEntity]
  simp only [entityTouches, Bool.and_eq_true, Bool.not_eq_true'] at h
  obtain ⟨⟨h1, h2⟩, h3⟩ := h
  simp only [h1, Bool.not_true, Bool.false_eq_true, if_false, h2]
  exact routesFold_sets _ _ _ ((contains_iff_mem _ _).mp h3) _ hsome

theorem processEntity_isSome (routeIds : List String) (entity : JsVal)
    (acc : List (String × LineStatus) × String) (line : String) :
    (mapGet (processEntity routeIds acc entity).1 line).isSome = (mapGet acc.1 line).isSome := by
  simp only [processEntity]
  by_cases h1 : (entity.get "alert").truthy
  · by_cases h2 : (decide (routeIds.length > 0) && ! (pickRoutes (entity.get "alert")).any (jsIncludesStr routeIds))
    · simp [h1, h2]
    · simp only [h1, Bool.not_true, Bool.false_eq_true, if_false, h2, routesFold_isSome]
  · simp [Bool.not_eq_true] at h1
    simp [h1]

theorem entitiesFold_get_skip (routeIds : List String) (line : String) (ents : List JsVal)
    (h : ∀ x ∈ ents, entityTouches routeIds line x = false) :
    ∀ acc, mapGet ((ents.foldl (processEntity routeIds) acc).1) line = mapGet acc.1 line := by
  induction ents with
  | nil => intro acc; rfl
  | cons e es ih =>
    intro acc
    rw [List.foldl_cons, ih (fun x hx => h x (List.mem_cons_of_mem e hx)),
      processEntity_get_skip routeIds line e acc (h e (List.mem_cons_self e es))]

theorem entitiesFold_isSome (routeIds : List String) (line : String) (ents : List JsVal) :
    ∀ acc, (mapGet ((ents.foldl (processEntity routeIds) acc).1) line).isSome
      = (mapGet acc.1 line).isSome := by
  induction ents with
  | nil => intro acc; rfl
  | cons e es ih => intro acc; rw [List.foldl_cons, ih, processEntity_isSome]

theorem mapGet_mapinit_isSome (d : LineStatus) (line : String) :
    ∀ L : List String, line ∈ L →
      (mapGet (L.map (fun l => (l, d))) line).isSome = true := by
  intro L
  induction L with
  | nil => intro h; simp at h
  | cons l ls ih =>
    intro h
    simp only [List.map_cons, mapGet]
    by_cases hl : l = line
    · rw [if_pos hl]; rfl
    · rw [if_neg hl]
      rcases List.mem_cons.mp h with h0 | h1
      · exact absurd h0.symm hl
      · exact ih h1

theorem mapGet_init_isSome (line : String) (h : line ∈ commonLines) :
    (mapGet initSubwayStatus line).isSome = true :=
  mapGet_mapinit_isSome _ line commonLines h

theorem mtaJson_truthy_of_entities {mtaJson : JsVal} {l : List JsVal}
    (h : mtaJson.get "entity" = JsVal.arr l) : mtaJson.truthy = true := by
  cases mtaJson <;> first | rfl | (exact absurd h (by simp [JsVal.get]))

/-- Claim C4 (counterexample). The per-alert claim fails under overwriting:
in `overwriteFeed`, the first alert names known line 4 with the non-null
message "4 trains running with delays" and passes the empty route filter, yet
the resulting map carries `{status: "normal", message: null}` for line 4,
because the later blank alert naming line 4 overwrote the entry. -/
theorem later_alert_resets_line :
    pickAlertText msgAlert4 = JsVal.str "4 trains running with delays"
    ∧ (pickAlertText msgAlert4).truthy = true
    ∧ pickRoutes msgAlert4 = [JsVal.str "4"]
    ∧ entityTouches [] "4" (JsVal.obj [("alert", msgAlert4)]) = true
    ∧ mapGet (processMtaJson overwriteFeed []).1 "4" = some ⟨"normal", JsVal.null⟩
    ∧ ("normal" : String) ≠ "delays" :=
  ⟨rfl, rfl, rfl, by decide, rfl, by decide⟩

/-- Claim C4 (amended). For every alert in the feed with a non-null extracted
message that names a route id in the known line universe and passes any
requested route filter, the per-line map assigns that line `status = delays`
with that message — provided no later entity in the feed also reaches the
write for that line (the loop is last-writer-wins, and a later alert with no
extractable text resets the line to normal). The gating is still independent
of the alert's effect field. -/
theorem last_matching_alert_gates_delay (mtaJson : JsVal) (routeIds : List String)
    (pre post : List JsVal) (e : JsVal) (line : String)
    (hfeed : mtaJson.get "entity" = JsVal.arr (pre ++ e :: post))
    (hline : line ∈ commonLines)
    (htouch : entityTouches routeIds line e = true)
    (hmsg : (pickAlertText (e.get "alert")).truthy = true)
    (hpost : ∀ x ∈ post, entityTouches routeIds line x = false) :
    mapGet (processMtaJson mtaJson routeIds).1 line
      = some ⟨"delays", pickAlertText (e.get "alert")⟩ := by
  have htr := mtaJson_truthy_of_entities hfeed
  simp only [processMtaJson, htr, Bool.not_true, Bool.false_eq_true, if_false, hfeed]
  unfold processEntities
  rw [List.foldl_append, List.foldl_cons]
  have hsome : (mapGet ((pre.foldl (processEntity routeIds) (initSubwayStatus, "none")).1) line).isSome = true := by
    rw [entitiesFold_isSome]
    exact mapGet_init_isSome line hline
  rw [entitiesFold_get_skip routeIds line post hpost,
    processEntity_get_hit routeIds line e _ htouch hsome, hmsg]
  rfl

/-- Claim C4 (witness). In `lastMsgFeed`, the message-bearing alert on line 4
is the last entity reaching line 4, so the map carries its message with
`status = delays` even though the alert has no effect field. -/
theorem last_matching_alert_gates_delay_check :
    lastMsgFeed.get "entity"
      = JsVal.arr [JsVal.obj [("alert", blankAlert4)], JsVal.obj [("alert", msgAlert4)],
                   JsVal.obj [("alert", blankAlertL)]]
    ∧ ("4" : String) ∈ commonLines
    ∧ entityTouches [] "4" (JsVal.obj [("alert", msgAlert4)]) = true
    ∧ (pickAlertText ((JsVal.obj [("alert", msgAlert4)]).get "alert")).truthy = true
    ∧ entityTouches [] "4" (JsVal.obj [("alert", blankAlertL)]) = false
    ∧ mapGet (processMtaJson lastMsgFeed []).1 "4"
        = some ⟨"delays", pickAlertText ((JsVal.obj [("alert", msgAlert4)]).get "alert")⟩ :=
  ⟨rfl, by decide, by decide, by decide, by decide,
   last_matching_alert_gates_delay lastMsgFeed []
     [JsVal.obj [("alert", blankAlert4)]] [JsVal.obj [("alert", blankAlertL)]]
     (JsVal.obj [("alert", msgAlert4)]) "4" rfl (by decide) (by decide) (by decide)
     (by intro x hx; rw [List.mem_singleton] at hx; subst hx; decide)⟩

/-- Claim C5. When the directions response has a non-empty route list and
every alternative contains a water-transport step (ferry mode, or an
instruction mentioning ferry / boat / water taxi / water shuttle),
`fetchTravelData` returns exactly the first-class ferry-only terminal record:
all numeric fields null, `distance_category = "unknown"`, no route, no lines,
no steps, `ferry_only_route = true`. -/
theorem ferry_only_terminal_shape (c : Coords) (resp : DirectionsResponse)
    (routes : List RawRoute) (w : String)
    (hroutes : resp.routes = some routes)
    (hne : routes ≠ [])
    (hferry : ∀ r ∈ routes, isFerryRoute (routeSteps r) = true) :
    fetchTravelData true (some c) (some resp) w
      = some ⟨none, none, none, "unknown", none, true, [], []⟩ := by
  have hfilter : routes.filter (fun r => ! isFerryRoute (routeSteps r)) = [] := by
    rw [List.filter_eq_nil_iff]
    intro a ha
    rw [hferry a ha]
    simp
  have hlen : (routes.length == 0) = false := by
    simp [List.length_eq_zero, hne]
  simp only [fetchTravelData, getDirections, hroutes, hlen, hfilter, Bool.not_true,
    Bool.false_eq_true, if_false]

/-- Claim C5 (witness). A concrete single-route response whose only route is a
ferry crossing yields the terminal record. -/
theorem ferry_only_terminal_shape_check :
    respFerry.routes = some [ferryRoute]
    ∧ [ferryRoute] ≠ ([] : List RawRoute)
    ∧ isFerryRoute (routeSteps ferryRoute) = true
    ∧ fetchTravelData true (some ⟨0, 0⟩) (some respFerry) "none"
        = some ⟨none, none, none, "unknown", none, true, [], []⟩ :=
  ⟨rfl, by simp, by decide,
   ferry_only_terminal_shape ⟨0, 0⟩ respFerry [ferryRoute] "none" rfl (by simp)
     (by intro r hr; rw [List.mem_singleton] at hr; subst hr; decide)⟩

/-- Claim C7. For every travel-data result that is not ferry-only,
`storm_minutes = round(baseline_minutes × m)` where `m` is the fixed
multiplier for the weather-severity bucket (`none→1.0, light→1.3,
moderate→1.7, severe→2.2, extreme→3.0`, any other value `→1.0`); in
particular a 30-minute baseline under `severe` yields 66 storm minutes. -/
theorem storm_projection_spec :
    (∀ (hk : Bool) (dc : Option Coords) (resp : Option DirectionsResponse) (w : String)
        (td : TravelData),
      fetchTravelData hk dc resp w = some td →
      td.ferry_only_route = false →
      ∃ b, td.baseline_minutes = some b
        ∧ td.storm_minutes = some (jsRound ((b : ℚ) * getStormMultiplier w)))
    ∧ getStormMultiplier "none" = 1
    ∧ getStormMultiplier "light" = 13/10
    ∧ getStormMultiplier "moderate" = 17/10
    ∧ getStormMultiplier "severe" = 22/10
    ∧ getStormMultiplier "extreme" = 3
    ∧ (∀ w : String, w ∉ ["none", "light", "moderate", "severe", "extreme"] →
        getStormMultiplier w = 1)
    ∧ jsRound ((30 : ℚ) * getStormMultiplier "severe") = 66 := by
  refine ⟨?_, ?_, ?_, ?_, ?_, ?_, ?_, ?_⟩
  · intro hk dc resp w td h hf
    cases hk with
    | false => simp [fetchTravelData] at h
    | true =>
      cases dc with
      | none => simp [fetchTravelData] at h
      | some c =>
        simp only [fetchTravelData, Bool.not_true, Bool.false_eq_true, if_false] at h
        cases hdir : getDirections resp with
        | none => rw [hdir] at h; exact absurd h (by simp)
        | some dd =>
          rw [hdir] at h
          cases dd with
          | ferryOnly =>
            rw [Option.some_inj] at h
            rw [← h] at hf
            exact absurd hf (by simp)
          | route duration distance steps =>
            rw [Option.some_inj] at h
            refine ⟨jsRound (duration / 60), ?_, ?_⟩ <;> rw [← h]
  · simp +decide [getStormMultiplier]
  · simp +decide [getStormMultiplier]
  · simp +decide [getStormMultiplier]
  · simp +decide [getStormMultiplier]
  · simp +decide [getStormMultiplier]
  · intro w hw
    simp only [getStormMultiplier]
    split_ifs with h1 h2 h3 h4 h5 <;>
      first
        | rfl
        | (exfalso
           apply hw
           simp only [List.mem_cons, List.mem_singleton, List.not_mem_nil, or_false]
           tauto)
  · simp +decide only [getStormMultiplier]
    norm_num [jsRound]

/-- Claim C7 (witness). A concrete 1800-second, 2000-meter stepless route
under `severe` weather: `fetchTravelData` yields baseline 30 and storm
minutes 66 = round(30 × 2.2), with the ferry flag off. -/
theorem storm_projection_spec_check :
    fetchTravelData true (some ⟨0, 0⟩) (some respPlain) "severe" = some tdPlain
    ∧ tdPlain.ferry_only_route = false
    ∧ ∃ b, tdPlain.baseline_minutes = some b
        ∧ tdPlain.storm_minutes = some (jsRound ((b : ℚ) * getStormMultiplier "severe")) := by
  have heq : fetchTravelData true (some ⟨0, 0⟩) (some respPlain) "severe" = some tdPlain := by
    simp +decide only [fetchTravelData, getDirections, routeSteps, isFerryRoute,
      getStormMultiplier, getDistanceCategory, generateStepBasedRoute, jsOrElseStr,
      generateFallbackRoute, extractRelevantLines, respPlain, plainRoute, tdPlain]
    norm_num [jsRound]
    intro h
    exact absurd h (by decide)
  exact ⟨heq, rfl, (storm_projection_spec.1 true (some ⟨0, 0⟩) (some respPlain) "severe" tdPlain heq rfl)⟩

/-- Claim C6. In the `TransitStatus` returned by `fetchTransitStatus`, the
`path` field is `null` exactly when the concatenated origin + destination text
contains (case-insensitively) none of the fixed New Jersey keywords; when no
keyword matches, the PATH fetch is not consulted at all (the result is
independent of the PATH feed), and when one matches, the PATH fetch result is
surfaced and `path` is non-null. -/
theorem path_gating (mtaJson : JsVal) (pathFeed : Option PathFeed)
    (routeIds : List String) (origin destination : Option String) :
    ((fetchTransitStatus mtaJson pathFeed routeIds origin destination).path = none
      ↔ ∀ kw ∈ NJ_KEYWORDS, strContains (njHaystack origin destination) kw = false)
    ∧ ((∀ kw ∈ NJ_KEYWORDS, strContains (njHaystack origin destination) kw = false) →
        ∀ pf' : Option PathFeed,
          fetchTransitStatus mtaJson pf' routeIds origin destination
            = fetchTransitStatus mtaJson pathFeed routeIds origin destination)
    ∧ (isPathRelevant origin destination = true →
        (fetchTransitStatus mtaJson pathFeed routeIds origin destination).path
          = some (fetchPATHStatus pathFeed)) := by
  have hbr : isPathRelevant origin destination = false
      ↔ ∀ kw ∈ NJ_KEYWORDS, strContains (njHaystack origin destination) kw = false := by
    simp [isPathRelevant, List.any_eq_false, Bool.not_eq_true]
  refine ⟨?_, ?_, ?_⟩
  · rw [← hbr]
    by_cases hb : isPathRelevant origin destination
    · simp [fetchTransitStatus, hb]
    · simp only [Bool.not_eq_true] at hb
      simp [fetchTransitStatus, hb]
  · intro hkw pf'
    have hb0 := hbr.mpr hkw
    simp [fetchTransitStatus, hb0]
  · intro hb
    simp [fetchTransitStatus, hb]

/-- Claim C6 (witness). "Hoboken, NJ" → "Manhattan" matches a keyword, so the
PATH result is surfaced (non-null); "Brooklyn" → "Queens" matches none, so
`path` is `null`. -/
theorem path_gating_check :
    isPathRelevant (some "Hoboken, NJ") (some "Manhattan") = true
    ∧ (fetchTransitStatus JsVal.null none [] (some "Hoboken, NJ") (some "Manhattan")).path
        = some (fetchPATHStatus none)
    ∧ (∀ kw ∈ NJ_KEYWORDS, strContains (njHaystack (some "Brooklyn") (some "Queens")) kw = false)
    ∧ (fetchTransitStatus JsVal.null none [] (some "Brooklyn") (some "Queens")).path = none :=
  ⟨by decide,
   (path_gating JsVal.null none [] (some "Hoboken, NJ") (some "Manhattan")).2.2 (by decide),
   by decide,
   (path_gating JsVal.null none [] (some "Brooklyn") (some "Queens")).1.mpr (by decide)⟩

/-- Claim C8. For every non-negative distance `d` in miles, the bucket is
`walkable` exactly when `d < 0.8`, `short_transit` exactly when
`0.8 ≤ d < 3`, and `long_transit` exactly when `d ≥ 3`. -/
theorem distance_bucket_boundaries (d : ℚ) (_hd : 0 ≤ d) :
    (getDistanceCategory d = "walkable" ↔ d < 8/10)
    ∧ (getDistanceCategory d = "short_transit" ↔ 8/10 ≤ d ∧ d < 3)
    ∧ (getDistanceCategory d = "long_transit" ↔ 3 ≤ d) := by
  simp only [getDistanceCategory]
  split_ifs with h1 h2
  · exact ⟨⟨fun _ => h1, fun _ => rfl⟩,
      ⟨fun hc => absurd hc (by decide), fun hc => absurd h1 (not_lt.mpr hc.1)⟩,
      ⟨fun hc => absurd hc (by decide), fun hc => by linarith⟩⟩
  · exact ⟨⟨fun hc => absurd hc (by decide), fun hc => absurd hc h1⟩,
      ⟨fun _ => ⟨le_of_not_lt h1, h2⟩, fun _ => rfl⟩,
      ⟨fun hc => absurd hc (by decide), fun hc => by linarith⟩⟩
  · exact ⟨⟨fun hc => absurd hc (by decide), fun hc => by linarith⟩,
      ⟨fun hc => absurd hc (by decide), fun hc => absurd hc.2 h2⟩,
      ⟨fun _ => le_of_not_lt h2, fun _ => rfl⟩⟩

/-- Claim C8 (witness). The boundary values of the claim:
0.79 → walkable, 0.8 → short_transit, 2.99 → short_transit, 3.0 → long_transit. -/
theorem distance_bucket_boundaries_check :
    (0 : ℚ) ≤ 79/100
    ∧ getDistanceCategory (79/100) = "walkable"
    ∧ getDistanceCategory (8/10) = "short_transit"
    ∧ getDistanceCategory (299/100) = "short_transit"
    ∧ getDistanceCategory 3 = "long_transit" :=
  ⟨by norm_num,
   (distance_bucket_boundaries (79/100) (by norm_num)).1.mpr (by norm_num),
   (distance_bucket_boundaries (8/10) (by norm_num)).2.1.mpr (by norm_num),
   (distance_bucket_boundaries (299/100) (by norm_num)).2.1.mpr (by norm_num),
   (distance_bucket_boundaries 3 (by norm_num)).2.2.mpr (by norm_num)⟩

/-- The cache-correctness invariant for the travel-ban slot: whatever is
cached is the safe default. -/
def BanCacheOk (st : BanCacheState) : Prop :=
  ∀ v, st.cachedTravelBan = some v → v = getDefaultTravelBan

theorem fetchTravelBan_cases (st : BanCacheState) (now : Int) (h : BanCacheOk st) :
    (fetchTravelBan st now).1 = getDefaultTravelBan
    ∧ BanCacheOk (fetchTravelBan st now).2 := by
  have hok2 : BanCacheOk (⟨some getDefaultTravelBan, some now⟩ : BanCacheState) := by
    intro v hv
    simp only [BanCacheState.mk.injEq] at hv ⊢
    cases hv
    rfl
  obtain ⟨cached, ts⟩ := st
  rcases cached with _ | v
  · rcases ts with _ | t <;> exact ⟨rfl, hok2⟩
  · rcases ts with _ | t
    · exact ⟨rfl, hok2⟩
    · by_cases hf : (t != 0 && decide (now - t < CACHE_DURATION_MS)) = true
      · simp only [fetchTravelBan]
        rw [if_pos hf]
        exact ⟨h v rfl, h⟩
      · simp only [fetchTravelBan]
        rw [if_neg hf]
        exact ⟨rfl, hok2⟩

/-- Claim C9. From every reachable cache state — empty, fresh, or stale —
`fetchTravelBan` resolves to the no-ban default object
`{ban_level: "none", plain_english: null, affects_walking: false,
affects_subway: false, affects_rideshare: false}`: the fetch is stubbed to the
safe default (and the HTML ban parser plays no part in it). -/
theorem travel_ban_stub_default (s : BanCacheState) (hs : BanReachable s) (now : Int) :
    (fetchTravelBan s now).1 = getDefaultTravelBan := by
  have hok : BanCacheOk s := by
    induction hs with
    | init =>
      intro v hv
      simp at hv
    | step s' now' hr ih => exact (fetchTravelBan_cases s' now' ih).2
  exact (fetchTravelBan_cases s now hok).1

/-- Claim C9 (witness). The empty slot, a fresh slot (500 ms later), and a
stale slot (far past the 10-minute TTL) all resolve to the default. -/
theorem travel_ban_stub_default_check :
    BanReachable ⟨none, none⟩
    ∧ (fetchTravelBan ⟨none, none⟩ 1000).1 = getDefaultTravelBan
    ∧ (fetchTravelBan (fetchTravelBan ⟨none, none⟩ 1000).2 1500).1 = getDefaultTravelBan
    ∧ (fetchTravelBan (fetchTravelBan ⟨none, none⟩ 1000).2 99999999).1 = getDefaultTravelBan :=
  ⟨BanReachable.init,
   travel_ban_stub_default _ BanReachable.init 1000,
   travel_ban_stub_default _ (BanReachable.step _ 1000 BanReachable.init) 1500,
   travel_ban_stub_default _ (BanReachable.step _ 1000 BanReachable.init) 99999999⟩

/-- Claim C10. The fused payload's `is_walkable` flag is true exactly when the
travel data is non-null and either its distance bucket is `walkable` or its
baseline duration is non-null and under 20 minutes — so a `short_transit` or
`long_transit` trip with a sub-20-minute baseline is still flagged walkable. -/
theorem is_walkable_iff (td : Option TravelData) :
    isWalkable td = true
      ↔ ∃ t, td = some t
          ∧ (t.distance_category = "walkable"
             ∨ ∃ b, t.baseline_minutes = some b ∧ b < 20) := by
  cases td with
  | none => simp [isWalkable]
  | some t =>
    simp only [isWalkable, Bool.or_eq_true, beq_iff_eq, Option.some.injEq]
    constructor
    · rintro (h | h)
      · exact ⟨t, rfl, Or.inl h⟩
      · cases hb : t.baseline_minutes with
        | none => rw [hb] at h; simp at h
        | some b =>
          rw [hb] at h
          simp only [decide_eq_true_eq] at h
          exact ⟨t, rfl, Or.inr ⟨b, hb, h⟩⟩
    · rintro ⟨t', ht', hcase⟩
      cases ht'
      rcases hcase with h | ⟨b, hb, hlt⟩
      · exact Or.inl h
      · right
        rw [hb]
        simpa using hlt

/-- Claim C10 (witness). A `short_transit` trip with a 15-minute baseline is
flagged walkable. -/
theorem is_walkable_iff_check :
    isWalkable (some ⟨some 15, some 30, some 2, "short_transit", none, false, [], []⟩) = true :=
  (is_walkable_iff _).mpr ⟨_, rfl, Or.inr ⟨15, rfl, by norm_num⟩⟩

end StormSafe
